import Mathlib

set_option maxRecDepth 8000

/-!
Shallow embedding of the upsert / schema-inference subsystem of the
`datadice_utilpack` package (files
`gcp_toolkit/cloud_sql_controller.py` and
`gcp_toolkit/bigquery_controller.py`), together with theorems settling
the specification claims about it.

Conventions of the embedding:
* Python values that flow into `SchemaGenerator.infer_data_type` are
  modelled by the inductive `PVal`.  Python `bool` is a subclass of
  `int`, so the `isinstance(value, int)` test in the source matches
  booleans as well; the embedding reproduces this faithfully.
* `infer_string_date_or_timestamp` delegates to
  `dateutil.parser.parse`, an external library; its result for a given
  string is therefore carried as data on the string value (`StrProbe`),
  exactly the four possible non-`None` results of that helper.
* Effectful methods (`batch_insert`, `upsert_rows`) are embedded as
  functions from an environment describing the outcomes of the
  store/database operations to the list of store effects performed plus
  the final outcome (normal return or raised error).
-/

/-- Result of `SchemaGenerator.infer_string_date_or_timestamp` when it is
not `None`: the helper returns one of the strings `"DATE"`,
`"TIMESTAMP"`, `"INTEGER"`, `"BIGINT"` (it wraps `dateutil.parser.parse`,
which is abstracted here: each string value carries the helper's result
for it). -/
inductive StrProbe where
  | dATE
  | tIMESTAMP
  | iNTEGER
  | bIGINT
deriving DecidableEq, Repr

/-- The type name the probe result contributes to `types_encountered`. -/
def StrProbe.typeName : StrProbe → String
  | .dATE => "DATE"
  | .tIMESTAMP => "TIMESTAMP"
  | .iNTEGER => "INTEGER"
  | .bIGINT => "BIGINT"

/-- A Python runtime value as classified by
`SchemaGenerator.infer_data_type`.  `pInt` is a genuine `int` that is not
a `bool`; `pBool` is a Python `bool` (which `isinstance(·, int)` also
matches); `pStr probe` is a string together with the result of
`infer_string_date_or_timestamp` on it (`none` when the string parses as
none of date/timestamp/number); `pOther` is any value matching none of
the `isinstance` tests. -/
inductive PVal where
  | pInt (n : ℤ)
  | pBool (b : Bool)
  | pFloat
  | pDatetime
  | pDate
  | pList (l : List PVal)
  | pDict
  | pStr (probe : Option StrProbe)
  | pOther

/-- The fixed priority list walked by the `# Priority Logic` loop of
`infer_data_type`, in source order. -/
def priorityList : List String :=
  ["TEXT", "JSONB", "TEXT[]", "JSONB[]", "TIMESTAMP[]", "DATE[]",
   "REAL[]", "BIGINT[]", "INTEGER[]", "BOOLEAN[]", "TIMESTAMP", "DATE",
   "REAL", "BIGINT", "INTEGER", "BOOLEAN"]

/-- The priority resolution at the end of `infer_data_type`: return the
first entry of the fixed list present among the encountered types,
defaulting to `"TEXT"`.  The source collects a `set`; only membership
matters, so a list of the encountered types is an equivalent carrier. -/
def resolvePriority (encountered : List String) : String :=
  match priorityList.find? (fun t => encountered.contains t) with
  | some t => t
  | none => "TEXT"

mutual

/-- The per-value classification inside `infer_data_type`'s `for` loop.
The branches mirror the source's `isinstance` chain.  Because Python
`bool` is a subclass of `int`, a boolean satisfies
`isinstance(value, int)` first and is bucketed by its integer value
(`True` = 1, `False` = 0, both inside the 32-bit range), so the later
`elif isinstance(value, bool)` branch of the source is unreachable. -/
def classifyVal : PVal → String
  | .pInt n => if -2147483648 ≤ n ∧ n ≤ 2147483647 then "INTEGER" else "BIGINT"
  | .pBool _ => "INTEGER"
  | .pFloat => "REAL"
  | .pDatetime => "TIMESTAMP"
  | .pDate => "DATE"
  | .pList l =>
      if l.isEmpty then "TEXT[]"
      else resolvePriority (classifyList l) ++ "[]"
  | .pDict => "JSONB"
  | .pStr probe =>
      match probe with
      | some p => p.typeName
      | none => "TEXT"
  | .pOther => "TEXT"

/-- The list of types encountered across a list of values (the source's
`types_encountered` set, as a list). -/
def classifyList : List PVal → List String
  | [] => []
  | v :: vs => classifyVal v :: classifyList vs

end

/-- `SchemaGenerator.infer_data_type`: classify every value, then resolve
through the fixed priority list. -/
def infer_data_type (values : List PVal) : String :=
  resolvePriority (classifyList values)

example : infer_data_type [.pInt 5, .pInt 7] = "INTEGER" := by decide
example : infer_data_type [.pInt 5, .pInt 3000000000] = "BIGINT" := by decide
example : infer_data_type [.pBool true] = "INTEGER" := by decide
example : infer_data_type [.pInt 5, .pStr none] = "TEXT" := by decide
example : infer_data_type [] = "TEXT" := by decide
example : infer_data_type [.pList [.pInt 1]] = "INTEGER[]" := by decide
example : infer_data_type [.pList [.pList [.pInt 1]]] = "TEXT" := by decide

/-- A sample row: a Python `dict` from column name to value, with the
dict's insertion order preserved (Python dicts iterate in insertion
order). -/
def Row := List (String × PVal)

/-- One step of filling the source's `defaultdict(list)`
`column_values`: append `v` to the entry of column `c`, creating the
entry at the end (first-seen position) when absent. -/
def addColumnValue (acc : List (String × List PVal)) (c : String) (v : PVal) :
    List (String × List PVal) :=
  if acc.any (fun p => p.1 = c) then
    acc.map (fun p => if p.1 = c then (p.1, p.2 ++ [v]) else p)
  else
    acc ++ [(c, [v])]

/-- The `column_values` accumulation loop of
`generate_create_table_statement`: for each row in order, for each
`(column, value)` item in the row's order, append the value to that
column's list.  Columns appear in first-seen order. -/
def collectColumnValues (rows : List Row) : List (String × List PVal) :=
  rows.foldl (fun acc row => row.foldl (fun a kv => addColumnValue a kv.1 kv.2) acc) []

/-- Python's `sep.join(parts)`. -/
def joinSep (sep : String) : List String → String
  | [] => ""
  | [x] => x
  | x :: y :: xs => x ++ sep ++ joinSep sep (y :: xs)

/-- One column definition of the generated CREATE TABLE statement:
quoted name, inferred type, and the inline `PRIMARY KEY` marker exactly
when this column is in `primary_keys` and that list has length 1. -/
def columnDef (primary_keys : List String) (p : String × List PVal) : String :=
  "\"" ++ p.1 ++ "\" " ++ infer_data_type p.2 ++
    (if p.1 ∈ primary_keys ∧ primary_keys.length = 1 then " PRIMARY KEY" else "")

/-- The statement built by `generate_create_table_statement` after its
empty-sample guard: analyse the first 1000 rows, infer one type per
first-seen column, and append a composite `PRIMARY KEY (...)` clause
when more than one primary key is designated. -/
def create_table_statement_body (table_schema table_name : String)
    (dict_list : List Row) (primary_keys : List String) : String :=
  let sample_data := dict_list.take 1000
  let column_values := collectColumnValues sample_data
  let columns := column_values.map (columnDef primary_keys)
  let columns_str := joinSep ", " columns
  let create_statement :=
    "CREATE TABLE IF NOT EXISTS \"" ++ table_schema ++ "\".\"" ++ table_name
      ++ "\" (" ++ columns_str
  let create_statement :=
    if primary_keys.length > 1 then
      create_statement ++ ", PRIMARY KEY ("
        ++ joinSep ", " (primary_keys.map (fun key => "\"" ++ key ++ "\"")) ++ ")"
    else create_statement
  create_statement ++ ");"

/-- `SchemaGenerator.generate_create_table_statement`.  Raises
`ValueError` (modelled as `Except.error`) on an empty sample; otherwise
returns `create_table_statement_body`. -/
def generate_create_table_statement (table_schema table_name : String)
    (dict_list : List Row) (primary_keys : List String) : Except String String :=
  if dict_list.isEmpty then
    .error "The list of dictionaries is empty. Cannot generate schema."
  else
    .ok (create_table_statement_body table_schema table_name dict_list primary_keys)

example :
    generate_create_table_statement "s" "t" [[("id", .pInt 1), ("name", .pStr none)]] ["id"]
      = .ok "CREATE TABLE IF NOT EXISTS \"s\".\"t\" (\"id\" INTEGER PRIMARY KEY, \"name\" TEXT);" := by
  rfl

example :
    generate_create_table_statement "s" "t" [[("id", .pInt 1), ("name", .pStr none)]] ["id", "name"]
      = .ok "CREATE TABLE IF NOT EXISTS \"s\".\"t\" (\"id\" INTEGER, \"name\" TEXT, PRIMARY KEY (\"id\", \"name\"));" := by
  rfl

/-- `listStartsWith pat s` is true when `pat` is an initial segment of
`s` (character lists). -/
def listStartsWith : List Char → List Char → Bool
  | [], _ => true
  | _ :: _, [] => false
  | a :: as, b :: bs => a = b && listStartsWith as bs

/-- `listHasSub pat s`: `pat` occurs as a contiguous run inside `s`. -/
def listHasSub (pat : List Char) : List Char → Bool
  | [] => listStartsWith pat []
  | b :: bs => listStartsWith pat (b :: bs) || listHasSub pat bs

/-- `strContains s pat`: `pat` occurs as a substring of `s`. -/
def strContains (s pat : String) : Bool :=
  listHasSub pat.data s.data

theorem listStartsWith_append (p t : List Char) : listStartsWith p (p ++ t) = true := by
  induction p with
  | nil => rfl
  | cons a as ih => simp [listStartsWith, ih]

theorem listHasSub_append_middle (a m b : List Char) :
    listHasSub m (a ++ (m ++ b)) = true := by
  induction a with
  | nil =>
      cases m with
      | nil => cases b <;> simp [listHasSub, listStartsWith]
      | cons c cs =>
          simp only [List.nil_append, List.cons_append, listHasSub, Bool.or_eq_true]
          exact Or.inl (by simpa using listStartsWith_append (c :: cs) b)
  | cons c cs ih => simp [listHasSub, ih]

theorem string_data_append (s t : String) : (s ++ t).data = s.data ++ t.data := rfl

theorem str_append_assoc (a b c : String) : (a ++ b) ++ c = a ++ (b ++ c) :=
  String.ext (by simp only [string_data_append, List.append_assoc])

theorem str_empty_append (s : String) : "" ++ s = s :=
  String.ext (by simp [string_data_append])

/-- If `s` literally decomposes as `a ++ m ++ b`, then `strContains s m`. -/
theorem strContains_of_decomp (s a m b : String) (h : s = a ++ (m ++ b)) :
    strContains s m = true := by
  subst h
  show listHasSub m.data ((a ++ (m ++ b)).data) = true
  rw [string_data_append, string_data_append]
  exact listHasSub_append_middle a.data m.data b.data

/-- A member of a joined list occurs as a substring of the join. -/
theorem joinSep_mem_decomp (sep x : String) :
    ∀ l : List String, x ∈ l → ∃ a b : String, joinSep sep l = a ++ (x ++ b)
  | [], hx => absurd hx (List.not_mem_nil x)
  | [y], hx => by
      rcases List.mem_singleton.mp hx with rfl
      refine ⟨"", "", ?_⟩
      rw [String.append_empty, str_empty_append]
      rfl
  | y :: z :: zs, hx => by
      rcases List.mem_cons.mp hx with rfl | hmem
      · refine ⟨"", sep ++ joinSep sep (z :: zs), ?_⟩
        rw [str_empty_append]
        show x ++ sep ++ joinSep sep (z :: zs) = x ++ (sep ++ joinSep sep (z :: zs))
        rw [str_append_assoc]
      · rcases joinSep_mem_decomp sep x (z :: zs) hmem with ⟨a, b, hab⟩
        refine ⟨y ++ sep ++ a, b, ?_⟩
        show y ++ sep ++ joinSep sep (z :: zs) = y ++ sep ++ a ++ (x ++ b)
        rw [hab, str_append_assoc (y ++ sep) a (x ++ b)]

theorem contains_of_mem {l : List String} {x : String} (h : x ∈ l) :
    l.contains x = true := by
  simpa using h

theorem contains_eq_false_of_all_integer {l : List String}
    (h : ∀ s ∈ l, s = "INTEGER") {t : String} (ht : t ≠ "INTEGER") :
    l.contains t = false := by
  simp only [List.contains_eq_any_beq, List.any_eq_false]
  intro x hx
  have hx' := h x hx
  subst hx'
  simpa using ht

/-- If `"TEXT"` was encountered, the priority walk stops at its first
entry. -/
theorem resolvePriority_text {l : List String} (h : "TEXT" ∈ l) :
    resolvePriority l = "TEXT" := by
  unfold resolvePriority priorityList
  simp [List.find?_cons, h]

/-- If every encountered type is `"INTEGER"` and at least one was
encountered, the priority walk passes the fourteen earlier entries and
stops at `"INTEGER"`. -/
theorem resolvePriority_all_integer {l : List String} (hne : l ≠ [])
    (h : ∀ s ∈ l, s = "INTEGER") : resolvePriority l = "INTEGER" := by
  have hmem : "INTEGER" ∈ l := by
    match l, hne with
    | x :: xs, _ => exact h x (List.mem_cons_self x xs) ▸ List.mem_cons_self x xs
  have hno : ∀ t : String, t ≠ "INTEGER" → t ∉ l := fun t ht hm => ht (h t hm)
  unfold resolvePriority priorityList
  simp [List.find?_cons, hmem,
    hno "TEXT" (by decide), hno "JSONB" (by decide), hno "TEXT[]" (by decide),
    hno "JSONB[]" (by decide), hno "TIMESTAMP[]" (by decide), hno "DATE[]" (by decide),
    hno "REAL[]" (by decide), hno "BIGINT[]" (by decide), hno "INTEGER[]" (by decide),
    hno "BOOLEAN[]" (by decide), hno "TIMESTAMP" (by decide), hno "DATE" (by decide),
    hno "REAL" (by decide), hno "BIGINT" (by decide)]

theorem classifyVal_mem {v : PVal} {values : List PVal} (h : v ∈ values) :
    classifyVal v ∈ classifyList values := by
  induction values with
  | nil => cases h
  | cons w ws ih =>
      rcases List.mem_cons.mp h with rfl | hmem
      · exact List.mem_cons_self _ _
      · exact List.mem_cons_of_mem _ (ih hmem)

theorem classifyList_all_integer {values : List PVal}
    (h : ∀ v ∈ values, ∃ n : ℤ, v = PVal.pInt n ∧ -2147483648 ≤ n ∧ n ≤ 2147483647) :
    ∀ s ∈ classifyList values, s = "INTEGER" := by
  induction values with
  | nil => intro s hs; cases hs
  | cons w ws ih =>
      intro s hs
      rcases List.mem_cons.mp hs with rfl | hmem
      · rcases h w (List.mem_cons_self w ws) with ⟨n, rfl, h1, h2⟩
        simp [classifyVal, h1, h2]
      · exact ih (fun v hv => h v (List.mem_cons_of_mem _ hv)) s hmem

theorem classifyList_ne_nil {values : List PVal} (h : values ≠ []) :
    classifyList values ≠ [] := by
  match values, h with
  | v :: vs, _ => simp [classifyList]

/-- C4. For every column sample, if at least one observed value is a
string that parses as none of date, timestamp, or number (the string
probe `infer_string_date_or_timestamp` returns `None`), then
`infer_data_type` resolves the column to `TEXT`, whatever else was
observed: the unparseable string contributes `"TEXT"` to
`types_encountered`, and `"TEXT"` is the first entry of the fixed
priority list. -/
theorem infer_unparseable_string_gives_text (values : List PVal)
    (h : PVal.pStr none ∈ values) : infer_data_type values = "TEXT" := by
  have : classifyVal (PVal.pStr none) ∈ classifyList values := classifyVal_mem h
  exact resolvePriority_text (by simpa [classifyVal] using this)

theorem infer_unparseable_string_gives_text_witness :
    PVal.pStr none ∈ [PVal.pInt 7, PVal.pStr none, PVal.pBool true] ∧
      infer_data_type [PVal.pInt 7, PVal.pStr none, PVal.pBool true] = "TEXT" :=
  ⟨by simp, infer_unparseable_string_gives_text _ (by simp)⟩

/-- C5. A non-empty sample consisting only of genuine Python ints (not
bools) inside the 32-bit signed range resolves to `INTEGER`, not
`BIGINT`: every value classifies as `"INTEGER"`, and the priority walk
reaches `"INTEGER"` before `"BIGINT"` only when `"BIGINT"` was never
encountered, which holds here. -/
theorem infer_small_ints_gives_integer (values : List PVal) (hne : values ≠ [])
    (h : ∀ v ∈ values, ∃ n : ℤ, v = PVal.pInt n ∧ -2147483648 ≤ n ∧ n ≤ 2147483647) :
    infer_data_type values = "INTEGER" :=
  resolvePriority_all_integer (classifyList_ne_nil hne) (classifyList_all_integer h)

theorem infer_small_ints_gives_integer_witness :
    infer_data_type [PVal.pInt 2147483647, PVal.pInt (-2147483648), PVal.pInt 0] = "INTEGER" :=
  infer_small_ints_gives_integer _ (by simp)
    (by
      intro v hv
      rcases List.mem_cons.mp hv with rfl | hv
      · exact ⟨2147483647, rfl, by decide, by decide⟩
      rcases List.mem_cons.mp hv with rfl | hv
      · exact ⟨-2147483648, rfl, by decide, by decide⟩
      rcases List.mem_cons.mp hv with rfl | hv
      · exact ⟨0, rfl, by decide, by decide⟩
      · cases hv)

/-- C6 (code bug).  The specification says booleans classify as boolean
and a sample of booleans resolves to `BOOLEAN`.  In the source, Python
`bool` is a subclass of `int`, so `isinstance(value, int)` matches
`True`/`False` first and buckets them as `INTEGER` (their integer
values 1 and 0 lie inside the 32-bit range); the later
`elif isinstance(value, bool)` branch — whose evident intent is the
spec's behavior — is unreachable.  Evaluation of the embedded code at
the failing input `[True]` (and at `[True, False]`) yields `INTEGER`. -/
theorem infer_bools_gives_integer_not_boolean :
    infer_data_type [PVal.pBool true] = "INTEGER" ∧
      infer_data_type [PVal.pBool true, PVal.pBool false] = "INTEGER" ∧
      "INTEGER" ≠ "BOOLEAN" := by
  refine ⟨by rfl, by rfl, by decide⟩

/-- C9. Called on an empty list of values (a column observed in no row,
or a direct call with `[]`), `infer_data_type` encounters no types, the
priority walk finds nothing, and the trailing default returns `"TEXT"`
rather than raising. -/
theorem infer_empty_values_gives_text : infer_data_type [] = "TEXT" := by rfl

/-- The `update_set_statements` local of
`BigQueryController._generate_sql_merge`: one `T.col = S.col` assignment
for EVERY field of the main table's schema (`columns_to_update` is the
full field-name list; it is not filtered by the unique columns). -/
def update_set_statements (columns_to_update : List String) : String :=
  joinSep ", " (columns_to_update.map (fun col => "T." ++ col ++ " = S." ++ col))

/-- The `insert_columns` local of `_generate_sql_merge`. -/
def insert_columns (columns_to_update : List String) : String :=
  joinSep ", " columns_to_update

/-- The `insert_values` local of `_generate_sql_merge`. -/
def insert_values (columns_to_update : List String) : String :=
  joinSep ", " (columns_to_update.map (fun col => "S." ++ col))

/-- The `on_conditions` local of `_generate_sql_merge`. -/
def on_conditions (unique_columns : List String) : String :=
  joinSep " AND " (unique_columns.map (fun col => "T." ++ col ++ " = S." ++ col))

/-- `BigQueryController._generate_sql_merge`.  `schema_field_names` is
the field-name list of the main table's schema as fetched by
`client.get_table(main_table_ref)` (the fetch itself is the only
effectful part of the method). -/
def generate_sql_merge (main_table_ref temp_table_ref : String)
    (schema_field_names unique_columns : List String) : String :=
  "\n        MERGE `" ++ main_table_ref ++ "` T\n        USING `" ++ temp_table_ref
    ++ "` S\n        ON " ++ on_conditions unique_columns
    ++ "\n        WHEN MATCHED THEN\n            UPDATE SET "
    ++ update_set_statements schema_field_names
    ++ "\n        WHEN NOT MATCHED THEN\n            INSERT ("
    ++ insert_columns schema_field_names
    ++ ")\n            VALUES(" ++ insert_values schema_field_names
    ++ ")\n        "

/-- C1, counterexample.  Main schema `[id, name]`, unique columns
`[id]`: the generated `WHEN MATCHED ... UPDATE SET` clause re-assigns
the key column `id` (`T.id = S.id` is its first assignment), so the
claim that only non-key columns are updated is false. -/
theorem merge_update_set_reassigns_key_column :
    update_set_statements ["id", "name"] = "T.id = S.id, T.name = S.name" ∧
      strContains (generate_sql_merge "p.d.main" "p.d.main_temp_x" ["id", "name"] ["id"])
        ("UPDATE SET T.id = S.id, T.name = S.name") = true := by
  constructor
  · rfl
  · decide

/-- C1, amended.  For every main-table schema and non-empty
unique-column list, the generated MERGE's `WHEN MATCHED ... UPDATE SET`
clause re-assigns EVERY column of the main table's schema — key columns
included — and the `WHEN NOT MATCHED` branch inserts the full row
(every schema column, in order). -/
theorem merge_updates_all_columns_inserts_full_row
    (main_table_ref temp_table_ref : String)
    (schema_field_names unique_columns : List String)
    (_hk : unique_columns ≠ []) :
    (∀ col ∈ schema_field_names,
      strContains (update_set_statements schema_field_names)
        ("T." ++ col ++ " = S." ++ col) = true) ∧
    (∀ col ∈ schema_field_names,
      strContains (insert_columns schema_field_names) col = true) ∧
    strContains
      (generate_sql_merge main_table_ref temp_table_ref schema_field_names unique_columns)
      ("\n        WHEN MATCHED THEN\n            UPDATE SET "
        ++ update_set_statements schema_field_names) = true ∧
    strContains
      (generate_sql_merge main_table_ref temp_table_ref schema_field_names unique_columns)
      ("\n        WHEN NOT MATCHED THEN\n            INSERT ("
        ++ insert_columns schema_field_names
        ++ ")\n            VALUES(" ++ insert_values schema_field_names ++ ")") = true := by
  refine ⟨?_, ?_, ?_, ?_⟩
  · intro col hcol
    obtain ⟨a, b, hab⟩ := joinSep_mem_decomp ", " ("T." ++ col ++ " = S." ++ col) _
      (List.mem_map_of_mem (fun col => "T." ++ col ++ " = S." ++ col) hcol)
    exact strContains_of_decomp _ a _ b hab
  · intro col hcol
    obtain ⟨a, b, hab⟩ := joinSep_mem_decomp ", " col _ hcol
    exact strContains_of_decomp _ a _ b hab
  · apply strContains_of_decomp _
      ("\n        MERGE `" ++ main_table_ref ++ "` T\n        USING `" ++ temp_table_ref
        ++ "` S\n        ON " ++ on_conditions unique_columns) _
      ("\n        WHEN NOT MATCHED THEN\n            INSERT ("
        ++ insert_columns schema_field_names
        ++ ")\n            VALUES(" ++ insert_values schema_field_names ++ ")\n        ")
    unfold generate_sql_merge
    apply String.ext
    simp only [string_data_append, List.append_assoc, List.cons_append, List.nil_append]
  · apply strContains_of_decomp _
      ("\n        MERGE `" ++ main_table_ref ++ "` T\n        USING `" ++ temp_table_ref
        ++ "` S\n        ON " ++ on_conditions unique_columns
        ++ "\n        WHEN MATCHED THEN\n            UPDATE SET "
        ++ update_set_statements schema_field_names) _
      ("\n        ")
    unfold generate_sql_merge
    apply String.ext
    simp only [string_data_append, List.append_assoc, List.cons_append, List.nil_append]

theorem merge_updates_all_columns_inserts_full_row_witness :
    (∀ col ∈ ["id", "name"],
      strContains (update_set_statements ["id", "name"])
        ("T." ++ col ++ " = S." ++ col) = true) ∧
    (∀ col ∈ ["id", "name"],
      strContains (insert_columns ["id", "name"]) col = true) ∧
    strContains (generate_sql_merge "p.d.main" "p.d.main_temp_x" ["id", "name"] ["id"])
      ("\n        WHEN MATCHED THEN\n            UPDATE SET "
        ++ update_set_statements ["id", "name"]) = true ∧
    strContains (generate_sql_merge "p.d.main" "p.d.main_temp_x" ["id", "name"] ["id"])
      ("\n        WHEN NOT MATCHED THEN\n            INSERT ("
        ++ insert_columns ["id", "name"]
        ++ ")\n            VALUES(" ++ insert_values ["id", "name"] ++ ")") = true :=
  merge_updates_all_columns_inserts_full_row "p.d.main" "p.d.main_temp_x"
    ["id", "name"] ["id"] (by simp)

/-- C7, counterexample.  With a single primary key `k` that does not
occur among the sample's columns, the generated statement contains no
`PRIMARY KEY` marker at all: the inline marker is attached only to
column definitions, and `k` yields none. -/
theorem create_table_single_key_absent_no_marker :
    generate_create_table_statement "s" "t" [[("a", PVal.pInt 1)]] ["k"]
        = .ok "CREATE TABLE IF NOT EXISTS \"s\".\"t\" (\"a\" INTEGER);" ∧
      strContains "CREATE TABLE IF NOT EXISTS \"s\".\"t\" (\"a\" INTEGER);" "PRIMARY KEY"
        = false := by
  constructor
  · rfl
  · decide

/-- C7, amended.  For every non-empty sample and key-column list: on an
empty sample the generator raises; otherwise it returns
`create_table_statement_body`, whose statement (a) contains the inline
`"<key>" <type> PRIMARY KEY` definition whenever the key list is a
single column that occurs among the sample's observed columns, and (b)
contains the composite `, PRIMARY KEY ("k1", "k2", ...)` clause listing
the keys in input order whenever the key list has length > 1. -/
theorem create_table_primary_key_clauses (table_schema table_name : String)
    (dict_list : List Row) (primary_keys : List String)
    (hne : dict_list ≠ []) :
    generate_create_table_statement table_schema table_name dict_list primary_keys
        = .ok (create_table_statement_body table_schema table_name dict_list primary_keys) ∧
      (∀ k vals, primary_keys = [k] →
        (k, vals) ∈ collectColumnValues (dict_list.take 1000) →
        strContains (create_table_statement_body table_schema table_name dict_list primary_keys)
          ("\"" ++ k ++ "\" " ++ infer_data_type vals ++ " PRIMARY KEY") = true) ∧
      (primary_keys.length > 1 →
        strContains (create_table_statement_body table_schema table_name dict_list primary_keys)
          (", PRIMARY KEY ("
            ++ joinSep ", " (primary_keys.map (fun key => "\"" ++ key ++ "\"")) ++ ")")
          = true) := by
  have hempty : dict_list.isEmpty = false := by
    simpa [List.isEmpty_iff] using hne
  refine ⟨by simp [generate_create_table_statement, hempty], ?_, ?_⟩
  · intro k vals hpk hmem
    subst hpk
    have hcd : columnDef [k] (k, vals)
        = "\"" ++ k ++ "\" " ++ infer_data_type vals ++ " PRIMARY KEY" := by
      simp [columnDef]
    obtain ⟨a, b, hab⟩ := joinSep_mem_decomp ", " (columnDef [k] (k, vals))
      (collectColumnValues (dict_list.take 1000) |>.map (columnDef [k]))
      (List.mem_map_of_mem (columnDef [k]) hmem)
    rw [hcd] at hab
    apply strContains_of_decomp _
      ("CREATE TABLE IF NOT EXISTS \"" ++ table_schema ++ "\".\"" ++ table_name
        ++ "\" (" ++ a) _ (b ++ ");")
    unfold create_table_statement_body
    simp only [List.length_cons, List.length_nil, Nat.zero_add, gt_iff_lt,
      Nat.lt_irrefl, if_false, hab]
    apply String.ext
    simp only [string_data_append, List.append_assoc, List.cons_append, List.nil_append]
  · intro hl
    apply strContains_of_decomp _
      ("CREATE TABLE IF NOT EXISTS \"" ++ table_schema ++ "\".\"" ++ table_name
        ++ "\" ("
        ++ joinSep ", " ((collectColumnValues (dict_list.take 1000)).map
            (columnDef primary_keys))) _ (");")
    unfold create_table_statement_body
    simp only [if_pos hl]
    apply String.ext
    simp only [string_data_append, List.append_assoc, List.cons_append, List.nil_append]

theorem create_table_primary_key_clauses_witness :
    (generate_create_table_statement "s" "t"
          [[("id", PVal.pInt 1), ("x", PVal.pFloat)]] ["id"]
        = .ok (create_table_statement_body "s" "t"
            [[("id", PVal.pInt 1), ("x", PVal.pFloat)]] ["id"])) ∧
      (∀ k vals, ["id"] = [k] →
        (k, vals) ∈ collectColumnValues ([[("id", PVal.pInt 1), ("x", PVal.pFloat)]].take 1000) →
        strContains (create_table_statement_body "s" "t"
            [[("id", PVal.pInt 1), ("x", PVal.pFloat)]] ["id"])
          ("\"" ++ k ++ "\" " ++ infer_data_type vals ++ " PRIMARY KEY") = true) ∧
      (List.length ["id"] > 1 →
        strContains (create_table_statement_body "s" "t"
            [[("id", PVal.pInt 1), ("x", PVal.pFloat)]] ["id"])
          (", PRIMARY KEY ("
            ++ joinSep ", " (List.map (fun key => "\"" ++ key ++ "\"") ["id"]) ++ ")")
          = true) :=
  create_table_primary_key_clauses "s" "t"
    [[("id", PVal.pInt 1), ("x", PVal.pFloat)]] ["id"] (by simp)

/-- A store effect performed by `BigQueryController.upsert_rows` (BigQuery
API calls that create, load, compare, merge or delete tables; pure reads
used only to build statements are not listed). -/
inductive BQEffect where
  | createMainTable (datasetId tableId : String)
  | createTempTable (ref : String)
  | loadTempTable (ref : String)
  | compareSchemas (mainRef tempRef : String)
  | runMergeQuery (sql : String)
  | deleteTable (ref : String)
deriving DecidableEq, Repr

/-- The outcome of an `upsert_rows` call: normal return, the
`ValueError` for a missing schema path, `UpsertRequestError` (the
`except` block wraps every failure inside the `try` as code 418), or an
unwrapped exception propagating from before the `try`. -/
inductive BQOutcome where
  | ok
  | valueError (msg : String)
  | upsertError (code : Nat) (msg : String)
  | genericError (msg : String)
deriving DecidableEq, Repr

/-- Environment describing what the BigQuery backend does on each call
of one `upsert_rows` run: whether the target exists, whether each step
succeeds, the random suffix `uuid4` produced, and the field names of
the main table's schema. -/
structure BQEnv where
  tableExists : Bool
  schemaPathProvided : Bool
  createNewTableOk : Bool
  createNewTableErr : String
  createTempOk : Bool
  loadOk : Bool
  schemasMatch : Bool
  mergeOk : Bool
  mergeErr : String
  tempSuffix : String
  mainSchemaFields : List String

/-- The `try` block of `upsert_rows`: create the temp table (with its
bounded verification loop), bulk-load the rows (with retries), compare
schemas, then run the generated MERGE; the first failing step aborts
the block with the exception the corresponding helper raises. -/
def upsertTryBody (env : BQEnv) (mainRef tempRef : String)
    (unique_columns : List String) : List BQEffect × BQOutcome :=
  if !env.createTempOk then
    ([.createTempTable tempRef],
      .upsertError 418
        ("Code 418: Upsert failed - Could not verify the existence of table " ++ tempRef))
  else if !env.loadOk then
    ([.createTempTable tempRef, .loadTempTable tempRef],
      .upsertError 418
        ("Code 418: Upsert failed - Could not insert rows into " ++ tempRef))
  else if !env.schemasMatch then
    ([.createTempTable tempRef, .loadTempTable tempRef, .compareSchemas mainRef tempRef],
      .upsertError 418 "Code 418: Upsert failed - Mismatched table schemas")
  else if !env.mergeOk then
    ([.createTempTable tempRef, .loadTempTable tempRef, .compareSchemas mainRef tempRef,
        .runMergeQuery (generate_sql_merge mainRef tempRef env.mainSchemaFields unique_columns)],
      .upsertError 418 ("Code 418: Upsert failed - " ++ env.mergeErr))
  else
    ([.createTempTable tempRef, .loadTempTable tempRef, .compareSchemas mainRef tempRef,
        .runMergeQuery (generate_sql_merge mainRef tempRef env.mainSchemaFields unique_columns)],
      .ok)

/-- `BigQueryController.upsert_rows`.  The main-table existence check
and creation happen before the `try`; a failure there propagates
unwrapped.  The staging-table name is the main table reference plus
`_temp_<uuid>`.  The `finally` appends the `delete_table` call to every
path that reaches the `try`. -/
def upsert_rows (env : BQEnv) (projectId datasetId tableId : String)
    (unique_columns : List String) : List BQEffect × BQOutcome :=
  let mainRef := projectId ++ "." ++ datasetId ++ "." ++ tableId
  if !env.tableExists && !env.schemaPathProvided then
    ([], .valueError "Schema path must be provided to create a new table.")
  else if !env.tableExists && !env.createNewTableOk then
    ([.createMainTable datasetId tableId], .genericError env.createNewTableErr)
  else
    let preEffects : List BQEffect :=
      if env.tableExists then [] else [.createMainTable datasetId tableId]
    let tempRef := mainRef ++ "_temp_" ++ env.tempSuffix
    let body := upsertTryBody env mainRef tempRef unique_columns
    (preEffects ++ body.1 ++ [.deleteTable tempRef], body.2)

/-- C8.  Every `upsert_rows` run that gets past the target-table
existence/creation step ends by deleting the per-call staging table
`<project>.<dataset>.<table>_temp_<suffix>`: whatever the outcomes of
the temp-table creation, load, schema comparison and merge steps, the
last store effect of the call is `deleteTable` of that staging table. -/
theorem upsert_rows_always_deletes_staging (env : BQEnv)
    (projectId datasetId tableId : String) (unique_columns : List String)
    (h : env.tableExists = true ∨
      (env.schemaPathProvided = true ∧ env.createNewTableOk = true)) :
    ∃ pre : List BQEffect,
      (upsert_rows env projectId datasetId tableId unique_columns).1
        = pre ++ [BQEffect.deleteTable
            (projectId ++ "." ++ datasetId ++ "." ++ tableId ++ "_temp_" ++ env.tempSuffix)] := by
  cases hte : env.tableExists with
  | true =>
      refine ⟨(upsertTryBody env (projectId ++ "." ++ datasetId ++ "." ++ tableId)
        (projectId ++ "." ++ datasetId ++ "." ++ tableId ++ "_temp_" ++ env.tempSuffix)
        unique_columns).1, ?_⟩
      simp [upsert_rows, hte]
  | false =>
      rcases h with hte' | ⟨hsp, hct⟩
      · rw [hte] at hte'; cases hte'
      · refine ⟨BQEffect.createMainTable datasetId tableId ::
          (upsertTryBody env (projectId ++ "." ++ datasetId ++ "." ++ tableId)
            (projectId ++ "." ++ datasetId ++ "." ++ tableId ++ "_temp_" ++ env.tempSuffix)
            unique_columns).1, ?_⟩
        simp [upsert_rows, hte, hsp, hct]

theorem upsert_rows_always_deletes_staging_witness :
    ∃ pre : List BQEffect,
      (upsert_rows
          { tableExists := false, schemaPathProvided := true, createNewTableOk := true,
            createNewTableErr := "", createTempOk := true, loadOk := false,
            schemasMatch := true, mergeOk := true, mergeErr := "",
            tempSuffix := "abc123", mainSchemaFields := ["id", "name"] }
          "p" "d" "t" ["id"]).1
        = pre ++ [BQEffect.deleteTable ("p" ++ "." ++ "d" ++ "." ++ "t" ++ "_temp_" ++
            ({ tableExists := false, schemaPathProvided := true, createNewTableOk := true,
               createNewTableErr := "", createTempOk := true, loadOk := false,
               schemasMatch := true, mergeOk := true, mergeErr := "",
               tempSuffix := "abc123", mainSchemaFields := ["id", "name"] } : BQEnv).tempSuffix)] :=
  upsert_rows_always_deletes_staging _ "p" "d" "t" ["id"] (Or.inr ⟨rfl, rfl⟩)

/-- A store effect performed against the PostgreSQL database by
`CloudSQLController.batch_insert` and its helpers.  `executeInsert`
records the single multi-row INSERT: its quoted column list, the number
of value rows, and the `ON CONFLICT` clause (the literal rendering of
the bound values by `cursor.mogrify` is not modelled). -/
inductive SQLEffect where
  | tableExistCheck (tableSchema tableName : String)
  | schemaCheck (tableSchema : String)
  | createSchema (tableSchema : String)
  | executeQuery (query : String)
  | readColumnCatalog (tableSchema tableName : String)
  | executeInsert (columnsStr : String) (rowCount : Nat) (onConflictClause : String)
  | commit
  | rollback
deriving DecidableEq, Repr

/-- A Python exception as raised by the Cloud SQL path: `ValueError`,
a database error propagated unchanged from `psycopg2`, or a generic
`Exception` newly constructed with a message. -/
inductive PyError where
  | valueError (msg : String)
  | dbError (msg : String)
  | genericExc (msg : String)
deriving DecidableEq, Repr

/-- Outcome of a `batch_insert` call. -/
inductive SQLOutcome where
  | ok
  | raised (e : PyError)
deriving DecidableEq, Repr

/-- Environment describing what the database does during one
`batch_insert` run: existence answers, success/failure of each
executed statement (with the backend's error text on failure), and the
`information_schema.columns` rows `(column_name, udt_name)` returned
for the target table. -/
structure SQLEnv where
  tableExists : Bool
  schemaExists : Bool
  ensureOk : Bool
  ensureErr : String
  createOk : Bool
  createErr : String
  colCatalog : List (String × String)
  insertOk : Bool
  insertErr : String

/-- Effects of `ensure_schema_exists` when it succeeds: check the
schema, and create-and-commit it when absent. -/
def ensure_schema_exists_effects (env : SQLEnv) (table_schema : String) :
    List SQLEffect :=
  if env.schemaExists then [.schemaCheck table_schema]
  else [.schemaCheck table_schema, .createSchema table_schema, .commit]

/-- The `ON CONFLICT` clause selection of `batch_insert` (its pure
part): `"ignore"` yields `DO NOTHING`, `"update"` re-sets every column
of the first data row that is not a primary key, and anything else is
the `ValueError` the method raises. -/
def on_conflict_clause (on_conflict_action : String) (primary_keys : List String)
    (firstRowCols : List String) : Except String String :=
  if on_conflict_action = "ignore" then .ok "ON CONFLICT DO NOTHING"
  else if on_conflict_action = "update" then
    .ok ("ON CONFLICT ("
      ++ joinSep ", " (primary_keys.map (fun key => "\"" ++ key ++ "\"")) ++ ") DO UPDATE SET "
      ++ joinSep ", " ((firstRowCols.filter (fun col => col ∉ primary_keys)).map
          (fun col => "\"" ++ col ++ "\" = EXCLUDED.\"" ++ col ++ "\"")))
  else .error ("Invalid on_conflict_action: " ++ on_conflict_action)

/-- The table-creation phase of `batch_insert` (runs only when the
target table does not exist): ensure the schema, generate the CREATE
TABLE statement, and run it through `_execute_query`, which commits on
success and rolls back and re-raises the original error on failure.
Returns the effects so far and the error to propagate, if any. -/
def batchCreatePhase (env : SQLEnv) (table_schema table_name : String)
    (data_list : List Row) (primary_keys : List String) :
    List SQLEffect × Option PyError :=
  if env.tableExists then
    ([.tableExistCheck table_schema table_name], none)
  else if !env.ensureOk then
    ([.tableExistCheck table_schema table_name, .schemaCheck table_schema, .rollback],
      some (.dbError env.ensureErr))
  else
    match generate_create_table_statement table_schema table_name data_list primary_keys with
    | .error msg =>
        ([.tableExistCheck table_schema table_name]
            ++ ensure_schema_exists_effects env table_schema,
          some (.valueError msg))
    | .ok stmt =>
        if env.createOk then
          ([.tableExistCheck table_schema table_name]
              ++ ensure_schema_exists_effects env table_schema
              ++ [.executeQuery stmt, .commit],
            none)
        else
          ([.tableExistCheck table_schema table_name]
              ++ ensure_schema_exists_effects env table_schema
              ++ [.executeQuery stmt, .rollback],
            some (.dbError env.createErr))

/-- `CloudSQLController.batch_insert`, for calls with
`timestamp_columns=None` (the default; the timestamp pass is a pure
per-row rewrite with no store effect).  An empty `data_list` returns at
once.  Otherwise: existence check and possible creation, `ON CONFLICT`
clause validation (an unknown action raises `ValueError` here), column
catalog read, then the single multi-row INSERT — committed on success;
on failure the method logs and raises a NEW generic `Exception` naming
the action and the original error, without rolling back. -/
def batch_insert (env : SQLEnv) (table_schema table_name : String)
    (data_list : List Row) (primary_keys : List String)
    (on_conflict_action : String) : List SQLEffect × SQLOutcome :=
  match data_list with
  | [] => ([], .ok)
  | firstRow :: _ =>
    match batchCreatePhase env table_schema table_name data_list primary_keys with
    | (effs, some e) => (effs, .raised e)
    | (effs, none) =>
        match on_conflict_clause on_conflict_action primary_keys
            (firstRow.map Prod.fst) with
        | .error msg => (effs, .raised (.valueError msg))
        | .ok clause =>
            let columns_str :=
              joinSep ", " (env.colCatalog.map (fun c => "\"" ++ c.1 ++ "\""))
            let effs2 := effs ++ [.readColumnCatalog table_schema table_name,
              .executeInsert columns_str data_list.length clause]
            if env.insertOk then (effs2 ++ [.commit], .ok)
            else (effs2, .raised (.genericExc
              ("Error occurred during batch upsert with action '"
                ++ on_conflict_action ++ "' (" ++ env.insertErr ++ ")")))

/-- C10. A `batch_insert` call with an empty data list returns normally
at once — no existence check, no creation, no catalog read, no INSERT,
no commit — whatever the other arguments and the database state. -/
theorem batch_insert_empty_data_noop (env : SQLEnv) (table_schema table_name : String)
    (primary_keys : List String) (on_conflict_action : String) :
    batch_insert env table_schema table_name [] primary_keys on_conflict_action
      = ([], SQLOutcome.ok) := rfl

/-- C2, counterexample.  Target table exists, the single INSERT fails
with database error `boom`: the call performs no `rollback` (and no
`commit`), and what it raises is a NEW generic `Exception` wrapping the
action name and the error text — not the triggering error re-raised
unchanged. -/
theorem batch_insert_failure_no_rollback_wrapped_error :
    batch_insert
        { tableExists := true, schemaExists := true, ensureOk := true, ensureErr := "",
          createOk := true, createErr := "", colCatalog := [("a", "int4")],
          insertOk := false, insertErr := "boom" }
        "s" "t" [[("a", PVal.pInt 1)]] ["a"] "ignore"
      = ([SQLEffect.tableExistCheck "s" "t", SQLEffect.readColumnCatalog "s" "t",
          SQLEffect.executeInsert "\"a\"" 1 "ON CONFLICT DO NOTHING"],
        SQLOutcome.raised (PyError.genericExc
          "Error occurred during batch upsert with action 'ignore' (boom)")) ∧
      SQLEffect.rollback ∉
        [SQLEffect.tableExistCheck "s" "t", SQLEffect.readColumnCatalog "s" "t",
          SQLEffect.executeInsert "\"a\"" 1 "ON CONFLICT DO NOTHING"] ∧
      SQLOutcome.raised (PyError.genericExc
          "Error occurred during batch upsert with action 'ignore' (boom)")
        ≠ SQLOutcome.raised (PyError.dbError "boom") := by
  refine ⟨by rfl, by decide, by decide⟩

/-- C2, amended.  When the target table already exists and the single
multi-row INSERT fails, `batch_insert` issues no `commit` (so the batch
is never applied — this is what makes partial application unobservable)
but also issues no `rollback`, and it raises a NEW generic `Exception`
whose message embeds the conflict action and the underlying error text,
in place of the triggering error. -/
theorem batch_insert_insert_failure_behavior (env : SQLEnv)
    (table_schema table_name : String) (firstRow : Row) (rest : List Row)
    (primary_keys : List String) (on_conflict_action : String)
    (hact : on_conflict_action = "ignore" ∨ on_conflict_action = "update")
    (hte : env.tableExists = true) (hfail : env.insertOk = false) :
    (batch_insert env table_schema table_name (firstRow :: rest) primary_keys
          on_conflict_action).2
        = SQLOutcome.raised (PyError.genericExc
            ("Error occurred during batch upsert with action '" ++ on_conflict_action
              ++ "' (" ++ env.insertErr ++ ")")) ∧
      SQLEffect.commit ∉ (batch_insert env table_schema table_name (firstRow :: rest)
          primary_keys on_conflict_action).1 ∧
      SQLEffect.rollback ∉ (batch_insert env table_schema table_name (firstRow :: rest)
          primary_keys on_conflict_action).1 := by
  rcases hact with rfl | rfl <;>
    simp [batch_insert, batchCreatePhase, on_conflict_clause, hte, hfail]

theorem batch_insert_insert_failure_behavior_witness :
    (batch_insert
          { tableExists := true, schemaExists := true, ensureOk := true, ensureErr := "",
            createOk := true, createErr := "", colCatalog := [("a", "int4")],
            insertOk := false, insertErr := "down" }
          "s" "t" [[("a", PVal.pInt 1)]] ["a"] "update").2
        = SQLOutcome.raised (PyError.genericExc
            ("Error occurred during batch upsert with action '" ++ "update"
              ++ "' (" ++
              ({ tableExists := true, schemaExists := true, ensureOk := true,
                 ensureErr := "", createOk := true, createErr := "",
                 colCatalog := [("a", "int4")], insertOk := false,
                 insertErr := "down" } : SQLEnv).insertErr ++ ")")) ∧
      SQLEffect.commit ∉ (batch_insert
          { tableExists := true, schemaExists := true, ensureOk := true, ensureErr := "",
            createOk := true, createErr := "", colCatalog := [("a", "int4")],
            insertOk := false, insertErr := "down" }
          "s" "t" [[("a", PVal.pInt 1)]] ["a"] "update").1 ∧
      SQLEffect.rollback ∉ (batch_insert
          { tableExists := true, schemaExists := true, ensureOk := true, ensureErr := "",
            createOk := true, createErr := "", colCatalog := [("a", "int4")],
            insertOk := false, insertErr := "down" }
          "s" "t" [[("a", PVal.pInt 1)]] ["a"] "update").1 :=
  batch_insert_insert_failure_behavior _ "s" "t" _ _ ["a"] "update"
    (Or.inr rfl) rfl rfl

/-- C3, counterexample.  With a non-empty batch, an absent target table
and the invalid action `"merge"`, the call first checks existence,
creates the table (executing and committing the CREATE TABLE
statement), and only then raises the `ValueError` — so it does modify
the store before failing. -/
theorem batch_insert_invalid_action_after_create :
    batch_insert
        { tableExists := false, schemaExists := true, ensureOk := true, ensureErr := "",
          createOk := true, createErr := "", colCatalog := [],
          insertOk := true, insertErr := "" }
        "s" "t" [[("a", PVal.pInt 1)]] ["a"] "merge"
      = ([SQLEffect.tableExistCheck "s" "t", SQLEffect.schemaCheck "s",
          SQLEffect.executeQuery
            "CREATE TABLE IF NOT EXISTS \"s\".\"t\" (\"a\" INTEGER PRIMARY KEY);",
          SQLEffect.commit],
        SQLOutcome.raised (PyError.valueError "Invalid on_conflict_action: merge")) ∧
      SQLEffect.executeQuery
          "CREATE TABLE IF NOT EXISTS \"s\".\"t\" (\"a\" INTEGER PRIMARY KEY);"
        ∈ [SQLEffect.tableExistCheck "s" "t", SQLEffect.schemaCheck "s",
          SQLEffect.executeQuery
            "CREATE TABLE IF NOT EXISTS \"s\".\"t\" (\"a\" INTEGER PRIMARY KEY);",
          SQLEffect.commit] := by
  refine ⟨by rfl, by decide⟩

/-- C3, amended.  With a non-empty batch and an `on_conflict_action`
that is neither `"ignore"` nor `"update"`, `batch_insert` raises the
descriptive `ValueError` before reading the column catalog and before
executing any INSERT — but only after the table-existence check and,
when the table was absent, after creating the schema and the table. -/
theorem batch_insert_invalid_action_raises_before_insert (env : SQLEnv)
    (table_schema table_name : String) (firstRow : Row) (rest : List Row)
    (primary_keys : List String) (on_conflict_action : String)
    (h1 : on_conflict_action ≠ "ignore") (h2 : on_conflict_action ≠ "update")
    (hpass : env.tableExists = true ∨ (env.ensureOk = true ∧ env.createOk = true)) :
    (batch_insert env table_schema table_name (firstRow :: rest) primary_keys
          on_conflict_action).2
        = SQLOutcome.raised (PyError.valueError
            ("Invalid on_conflict_action: " ++ on_conflict_action)) ∧
      (∀ cs n cl, SQLEffect.executeInsert cs n cl
          ∉ (batch_insert env table_schema table_name (firstRow :: rest) primary_keys
              on_conflict_action).1) ∧
      SQLEffect.readColumnCatalog table_schema table_name
        ∉ (batch_insert env table_schema table_name (firstRow :: rest) primary_keys
            on_conflict_action).1 := by
  rcases hpass with hte | ⟨hens, hcre⟩
  · simp [batch_insert, batchCreatePhase, on_conflict_clause, hte, h1, h2]
  · cases hte : env.tableExists
    · cases hse : env.schemaExists <;>
        simp [batch_insert, batchCreatePhase, on_conflict_clause,
          ensure_schema_exists_effects, generate_create_table_statement,
          hte, hens, hcre, hse, h1, h2]
    · simp [batch_insert, batchCreatePhase, on_conflict_clause, hte, h1, h2]

theorem batch_insert_invalid_action_raises_before_insert_witness :
    (batch_insert
          { tableExists := false, schemaExists := false, ensureOk := true, ensureErr := "",
            createOk := true, createErr := "", colCatalog := [],
            insertOk := true, insertErr := "" }
          "s" "t" [[("a", PVal.pInt 1)]] ["a"] "merge").2
        = SQLOutcome.raised (PyError.valueError
            ("Invalid on_conflict_action: " ++ "merge")) ∧
      (∀ cs n cl, SQLEffect.executeInsert cs n cl
          ∉ (batch_insert
              { tableExists := false, schemaExists := false, ensureOk := true,
                ensureErr := "", createOk := true, createErr := "", colCatalog := [],
                insertOk := true, insertErr := "" }
              "s" "t" [[("a", PVal.pInt 1)]] ["a"] "merge").1) ∧
      SQLEffect.readColumnCatalog "s" "t"
        ∉ (batch_insert
            { tableExists := false, schemaExists := false, ensureOk := true,
              ensureErr := "", createOk := true, createErr := "", colCatalog := [],
              insertOk := true, insertErr := "" }
            "s" "t" [[("a", PVal.pInt 1)]] ["a"] "merge").1 :=
  batch_insert_invalid_action_raises_before_insert _ "s" "t" _ _ ["a"] "merge"
    (by decide) (by decide) (Or.inr ⟨rfl, rfl⟩)
